import Mathlib

/-!
Verification development for the Reddit vote-manipulation watcher.

Shallow embedding of the repository's core modules:
* `reddit_scanner.py` — `RedditComment`, `get_new_comments`, `get_comments` /
  `_extract_comments` (the fetch itself is an environment parameter).
* `telegram_bot.py` — `get_full_whitelist`, `load_whitelist_from_excel`,
  the processed-comments ledger update, and `BackgroundScanner._run_loop`.
* `api_client.py` — `UpvoteBizAPI._make_request` retry loop and response
  classification, `add_order`, `downvote_comment`.

Python sets are modelled as lists compared by membership; wall-clock time is
passed explicitly (`now`, epoch seconds as a rational); network I/O is an
explicit environment.
-/

set_option maxRecDepth 8000

namespace VoteWatch

/-! ## reddit_scanner.py: data model -/

/-- `RedditComment` dataclass (reddit_scanner.py lines 15–32).
`created_utc` is the epoch-seconds creation time. -/
structure RedditComment where
  id : String
  author : String
  body : String
  permalink : String
  created_utc : ℚ
deriving DecidableEq

/-- `RedditComment.full_url` (lines 24–27). -/
def RedditComment.fullUrl (c : RedditComment) : String :=
  "https://www.reddit.com" ++ c.permalink

/-- `RedditComment.age_hours` (lines 29–32): `(time.time() - created_utc) / 3600`,
with the current wall clock passed explicitly as `now`. -/
def RedditComment.ageHours (now : ℚ) (c : RedditComment) : ℚ :=
  (now - c.created_utc) / 3600

/-! ## String helpers

Python string methods modelled over the character list (`String.data`), so
that every definition evaluates by kernel reduction.  `lower()` maps ASCII
letters (`Char.toLower`); `strip()` removes leading/trailing whitespace;
`s[:n]` takes the first `n` characters; `startswith`/`in` are prefix /
substring tests. -/

/-- Python `s.lower()`. -/
def strLower (s : String) : String := ⟨s.data.map Char.toLower⟩

/-- Python `s.strip()`. -/
def strStrip (s : String) : String :=
  ⟨((s.data.dropWhile Char.isWhitespace).reverse.dropWhile
    Char.isWhitespace).reverse⟩

/-- Python `s[:n]`. -/
def strTake (s : String) (n : ℕ) : String := ⟨s.data.take n⟩

/-- Python `s.startswith(pre)`. -/
def strStartsWith (s pre : String) : Bool := pre.data.isPrefixOf s.data

/-! ## telegram_bot.py: whitelist loading -/

/-- `load_whitelist_from_excel` (telegram_bot.py lines 36–44): the first
spreadsheet column as raw strings; keeps non-blank entries, stripped and
lower-cased.  (Python builds a set; modelled as a list up to membership.) -/
def loadWhitelistFromExcel (rows : List String) : List String :=
  (rows.filter (fun u => strStrip u ≠ "")).map (fun u => strLower (strStrip u))

/-- `get_full_whitelist` (telegram_bot.py lines 70–75): union of the
Excel-imported list and the lower-cased editable JSON whitelist. -/
def getFullWhitelist (excelRows jsonWhitelist : List String) : List String :=
  loadWhitelistFromExcel excelRows ++ jsonWhitelist.map strLower

/-! ## reddit_scanner.py: get_new_comments -/

/-- The per-comment loop body of `RedditScanner.get_new_comments`
(reddit_scanner.py lines 165–184): skip if already processed, skip if the
lower-cased author is whitelisted, skip if older than 24 hours, else keep. -/
def getNewCommentsAux (processed whitelistLower : List String) (now : ℚ) :
    List RedditComment → List RedditComment
  | [] => []
  | c :: rest =>
    if c.id ∈ processed then getNewCommentsAux processed whitelistLower now rest
    else if strLower c.author ∈ whitelistLower then
      getNewCommentsAux processed whitelistLower now rest
    else if RedditComment.ageHours now c > 24 then
      getNewCommentsAux processed whitelistLower now rest
    else c :: getNewCommentsAux processed whitelistLower now rest

/-- `RedditScanner.get_new_comments` (reddit_scanner.py lines 146–184) with the
fetched comments passed in (the fetch itself is `get_comments`, modelled
separately): lower-cases the whitelist once, then filters.  It does not touch
`processed` (the source explicitly does not reload it, lines 157–158). -/
def getNewComments (processed whitelist : List String) (now : ℚ)
    (comments : List RedditComment) : List RedditComment :=
  let whitelistLower := whitelist.map strLower
  getNewCommentsAux processed whitelistLower now comments

/-- The eligibility test of `get_new_comments` as a single boolean. -/
def eligibleB (processed whitelist : List String) (now : ℚ) (c : RedditComment) : Bool :=
  !(decide (c.id ∈ processed)) &&
  !(decide (strLower c.author ∈ whitelist.map strLower)) &&
  !(decide (RedditComment.ageHours now c > 24))

/-! ## telegram_bot.py: processed-comments ledger -/

/-- Python's `l[-n:]`: the last at most `n` elements of `l`. -/
def lastN (n : ℕ) (l : List α) : List α := l.drop (l.length - n)

/-- The ledger update of `BackgroundScanner._run_loop` (telegram_bot.py lines
158–159): `data["processed_comments"].append(comment.id)` followed by
`data["processed_comments"] = data["processed_comments"][-1000:]`. -/
def appendTrim (ledger : List String) (cid : String) : List String :=
  lastN 1000 (ledger ++ [cid])

/-! ## api_client.py: the Order Gateway -/

/-- A parsed JSON object, as produced by `response.json()`: modelled as an
association list from string keys to string values (the shapes the client
inspects are flat). -/
abbrev ApiDict := List (String × String)

/-- Substring test, modelling Python's `pat in s`. -/
def strContains (s pat : String) : Bool :=
  s.toList.tails.any (fun t => pat.toList.isPrefixOf t)

/-- One HTTP response as `_make_request` observes it: status code, the
`Content-Type` header, the body text, whether a `cf-ray` header is present,
and the result of `response.json()` if the body parses (`none` = the parse
raises). -/
structure HttpResponse where
  statusCode : ℕ
  contentType : String
  body : String
  cfRayHeader : Bool
  json? : Option ApiDict
deriving DecidableEq

/-- The HTML sniff of the 403 branch (api_client.py lines 155–159):
`'text/html' in content_type or response_text.startswith('<!DOCTYPE') or
'<html' in response_text.lower()`, with `response_text = response.text.strip()`. -/
def blockClassified403 (r : HttpResponse) : Bool :=
  strContains (strLower r.contentType) "text/html" ||
  strStartsWith (strStrip r.body) "<!DOCTYPE" ||
  strContains (strLower (strStrip r.body)) "<html"

/-- The proxy-error sniff (api_client.py line 192). -/
def proxyDenied (r : HttpResponse) : Bool :=
  strContains (strLower (strStrip r.body)) "access denied" ||
  strContains (strLower (strStrip r.body)) "ip is not in the whitelist"

/-- The success-path HTML sniff (api_client.py line 200):
`'text/html' in content_type or response_text.startswith('<!DOCTYPE')`. -/
def htmlInsteadOfJson (r : HttpResponse) : Bool :=
  strContains (strLower r.contentType) "text/html" ||
  strStartsWith (strStrip r.body) "<!DOCTYPE"

/-- The Cloudflare-marker check (api_client.py lines 162 and 204). -/
def cloudflareMarker (r : HttpResponse) : Bool :=
  strContains (strLower (strStrip r.body)) "cloudflare" || r.cfRayHeader

/-- Classification of the final response of `_make_request`
(api_client.py lines 152–246): the 403 branch, `raise_for_status` /
`requests.HTTPError` for other error statuses, the proxy-denied sniff, the
HTML (Cloudflare block) sniff, and finally JSON parsing.  `str(e)` texts of
library exceptions are abbreviated to fixed strings. -/
def handleResponse (r : HttpResponse) : ApiDict :=
  let txt := strStrip r.body
  if r.statusCode = 403 then
    if blockClassified403 r then
      if cloudflareMarker r then
        [("error", "403 Forbidden - Cloudflare protection block. Try using a proxy or contact upvote.biz support."),
         ("raw", strTake txt 500)]
      else
        [("error", "403 Forbidden - Received HTML instead of JSON (likely Cloudflare block)"),
         ("raw", strTake txt 500)]
    else
      match r.json? with
      | some d => d
      | none =>
        [("error", "403 Forbidden - API rejected request. Check API key and request parameters. Response: " ++ strTake txt 200),
         ("raw", strTake txt 500)]
  else if 400 ≤ r.statusCode then
    [("error", "HTTP " ++ toString r.statusCode ++ ": HTTPError"),
     ("raw", strTake r.body 500)]
  else if proxyDenied r then
    [("error", "Proxy access denied - IP not whitelisted. Remove PROXY_URL to use cloudscraper without proxy."),
     ("raw", strTake txt 500)]
  else if htmlInsteadOfJson r then
    if cloudflareMarker r then
      [("error", "Cloudflare protection block - cloudscraper should handle this, check if proxy is interfering"),
       ("raw", strTake txt 500)]
    else
      [("error", "Received HTML response instead of JSON"), ("raw", strTake txt 500)]
  else
    match r.json? with
    | some d => d
    | none => [("error", "Invalid JSON: JSONDecodeError"), ("raw", strTake r.body 500)]

/-- Observable steps of the `_make_request` retry loop. -/
inductive ReqEvent where
  | attempt (n : ℕ)
  | sleepSec (n : ℕ)
  | rewarm
deriving DecidableEq

/-- The retry loop of `_make_request` (api_client.py lines 117–150), unrolled
over the attempt index.  `net attempt` is the outcome of
`self.session.get(url, ...)` on that attempt (`error` = the call raises);
`rest` is the number of attempts still allowed after the current one
(`max_retries - 1 - attempt`).  A non-403 response breaks out of the loop; a
403 on a non-final attempt sleeps 2 s, resets `session_established` and
re-warms (`rewarm`), then retries; an exception on a non-final attempt sleeps
2 s and retries without re-warming; an exception on the final attempt is
re-raised (`.error`).  A 403 on the final attempt leaves the loop with that
response. -/
def requestAttempts (net : ℕ → Except String HttpResponse) :
    (attempt rest : ℕ) → Except String HttpResponse × List ReqEvent
  | attempt, 0 =>
    match net attempt with
    | .ok r => (.ok r, [.attempt attempt])
    | .error e => (.error e, [.attempt attempt])
  | attempt, rest + 1 =>
    match net attempt with
    | .ok r =>
      if r.statusCode = 403 then
        let next := requestAttempts net (attempt + 1) rest
        (next.1, .attempt attempt :: .sleepSec 2 :: .rewarm :: next.2)
      else (.ok r, [.attempt attempt])
    | .error e =>
      let next := requestAttempts net (attempt + 1) rest
      (next.1, .attempt attempt :: .sleepSec 2 :: next.2)

/-- `_make_request` = the retry loop with `max_retries = 2` (line 118)
followed by response classification; a re-raised transport exception
surfaces as `.error`. -/
def makeRequest (net : ℕ → Except String HttpResponse) :
    Except String ApiDict × List ReqEvent :=
  let res := requestAttempts net 0 1
  (res.1.map handleResponse, res.2)

/-- Number of request attempts recorded in a retry trace. -/
def numAttempts (tr : List ReqEvent) : ℕ :=
  (tr.filter (fun e => match e with | .attempt _ => true | _ => false)).length

/-- Python's `x or default` on an optional integer (`None` and `0` are falsy):
`quantity or config.DEFAULT_DOWNVOTE_QUANTITY` in `downvote_comment`. -/
def pyOrInt (v : Option ℤ) (d : ℤ) : ℤ :=
  match v with
  | none => d
  | some n => if n = 0 then d else n

/-- `config.DEFAULT_DOWNVOTE_QUANTITY` (config.py). -/
def DEFAULT_DOWNVOTE_QUANTITY : ℤ := 5

/-- `config.DOWNVOTE_SERVICE_ID` (config.py). -/
def DOWNVOTE_SERVICE_ID : ℕ := 8

/-- The request parameters built by `UpvoteBizAPI.add_order`
(api_client.py lines 271–276). -/
structure OrderParams where
  action : String
  service : ℕ
  link : String
  quantity : ℤ
deriving DecidableEq

/-- `add_order(service_id, link, quantity)`: the parameter dictionary it
passes to `_make_request`. -/
def addOrderParams (serviceId : ℕ) (link : String) (quantity : ℤ) : OrderParams :=
  { action := "add", service := serviceId, link := link, quantity := quantity }

/-- The effective quantity of `downvote_comment` (api_client.py lines
290–291): `qty = quantity or config.DEFAULT_DOWNVOTE_QUANTITY;
qty = max(3, qty)`. -/
def downvoteQty (quantity : Option ℤ) : ℤ :=
  max 3 (pyOrInt quantity DEFAULT_DOWNVOTE_QUANTITY)

/-- The order parameters `downvote_comment` submits (api_client.py line 292). -/
def downvoteCommentParams (commentUrl : String) (quantity : Option ℤ) : OrderParams :=
  addOrderParams DOWNVOTE_SERVICE_ID commentUrl (downvoteQty quantity)

/-! ## telegram_bot.py: the Dispatch Loop -/

/-- The persisted `data.json` document (telegram_bot.py `load_data`,
lines 47–63), with the settings and stats fields the loop reads flattened to
typed fields. -/
structure DataState where
  posts : List String
  whitelist : List String
  downvotesPerComment : ℤ
  scanInterval : ℕ
  processedComments : List String
  totalOrders : ℕ
  ordersToday : ℕ
  commentsDownvoted : ℕ
  lastReset : String
deriving DecidableEq

/-- The default document returned by `load_data` when the file is absent
(telegram_bot.py lines 56–63). -/
def initialData : DataState :=
  { posts := [], whitelist := [], downvotesPerComment := 30, scanInterval := 60,
    processedComments := [], totalOrders := 0, ordersToday := 0,
    commentsDownvoted := 0, lastReset := "" }

/-- Observable steps of the Dispatch Loop. -/
inductive Event where
  | submit (cid url : String) (qty : ℤ)
  | persist (snapshot : DataState)
  | notify (msg : String)
  | logScan (postCount whitelistCount : ℕ)
  | logError (e : String)
  | sleepSec (secs : ℕ)
deriving DecidableEq

/-- The environment of one loop execution: per-pass fetch results
(`get_comments` output for each monitored URL), the order-API response per
target URL, the Excel whitelist rows, the wall clock and calendar date per
pass, whether `self.send_message and self.chat_id` is truthy, and an
unhandled exception injected into a pass, if any. -/
structure LoopEnv where
  fetch : ℕ → String → List RedditComment
  api : String → ApiDict
  excelRows : List String
  now : ℕ → ℚ
  today : ℕ → String
  notifyEnabled : Bool
  passExc : ℕ → Option String

/-- `reset_daily_stats_if_needed` (telegram_bot.py lines 77–83): zero
`orders_today` and persist when the stored date differs from today. -/
def resetDailyStatsIfNeeded (today : String) (st : DataState) :
    DataState × List Event :=
  if st.lastReset ≠ today then
    let st' := { st with ordersToday := 0, lastReset := today }
    (st', [Event.persist st'])
  else (st, [])

/-- Handling of one eligible reply (telegram_bot.py lines 143–165): submit
the order via `downvote_comment`, reload the store (sequentially, the last
persisted state), update stats and compose the message according to the
outcome, append the id to the ledger and trim to the last 1000, persist the
full snapshot, then notify (when enabled) and throttle 2 s. -/
def handleComment (env : LoopEnv) (downvotes : ℤ) (st : DataState)
    (c : RedditComment) : DataState × List Event :=
  let qty := downvoteQty (some downvotes)
  let response := env.api c.fullUrl
  let stMsg :=
    if (response.lookup "order").isSome then
      ({ st with totalOrders := st.totalOrders + 1,
                 ordersToday := st.ordersToday + 1,
                 commentsDownvoted := st.commentsDownvoted + 1 },
       "[DOWNVOTED] u/" ++ c.author ++ "\nOrder #" ++
         ((response.lookup "order").getD "") ++ "\nDownvotes: " ++ toString downvotes)
    else
      (st, "[FAILED] u/" ++ c.author ++ "\n" ++
        ((response.lookup "error").getD "Unknown"))
  let st2 := { stMsg.1 with
    processedComments := appendTrim stMsg.1.processedComments c.id }
  (st2,
    Event.submit c.id c.fullUrl qty ::
    Event.persist st2 ::
    ((if env.notifyEnabled then [Event.notify stMsg.2] else []) ++
      [Event.sleepSec 2]))

/-- The inner `for comment in new_comments` loop (telegram_bot.py lines
143–165). -/
def handleComments (env : LoopEnv) (downvotes : ℤ) :
    DataState → List RedditComment → DataState × List Event
  | st, [] => (st, [])
  | st, c :: cs =>
    let r1 := handleComment env downvotes st c
    let r2 := handleComments env downvotes r1.1 cs
    (r2.1, r1.2 ++ r2.2)

/-- The `for post_url in posts` loop (telegram_bot.py lines 136–165): per
thread, fetch and filter against the fixed pass-start snapshot and
whitelist, then handle each eligible reply. -/
def scanPosts (env : LoopEnv) (k : ℕ) (snapshot whitelist : List String)
    (downvotes : ℤ) : DataState → List String → DataState × List Event
  | st, [] => (st, [])
  | st, url :: rest =>
    let newComments :=
      getNewComments snapshot whitelist (env.now k) (env.fetch k url)
    let r1 := handleComments env downvotes st newComments
    let r2 := scanPosts env k snapshot whitelist downvotes r1.1 rest
    (r2.1, r1.2 ++ r2.2)

/-- One pass of `BackgroundScanner._run_loop` (telegram_bot.py lines
123–167), with the whitelist computed before its size is logged — the
statement order recorded as `new_fixed` in fix_bug.py.  (As written in
telegram_bot.py the pass logs `len(whitelist)` one line before assigning
`whitelist` and so raises on every pass; that as-written order is modelled
separately by `buggyPreludeOrder` below.)  Loads the store, applies the
daily reset, takes the processed-id snapshot, scans every monitored thread,
then sleeps for the configured interval. -/
def runPassBody (env : LoopEnv) (k : ℕ) (st0 : DataState) :
    DataState × List Event :=
  let reset := resetDailyStatsIfNeeded (env.today k) st0
  let st := reset.1
  let whitelist := getFullWhitelist env.excelRows st.whitelist
  let snapshot := st.processedComments
  let r := scanPosts env k snapshot whitelist st.downvotesPerComment st st.posts
  (r.1, reset.2 ++ Event.logScan st.posts.length whitelist.length ::
    (r.2 ++ [Event.sleepSec st.scanInterval]))

/-- `time.sleep(30)` in the outer exception handler
(telegram_bot.py line 171). -/
def SCANNER_ERROR_BACKOFF : ℕ := 30

/-- One iteration of the `while self.running` loop (telegram_bot.py lines
121–171): run the pass body, or — when the pass raises — log the error,
sleep the fixed 30 s backoff and leave the state untouched.  (The injected
exception is modelled as raised at the top of the pass.) -/
def loopStep (env : LoopEnv) (k : ℕ) (st : DataState) :
    DataState × List Event :=
  match env.passExc k with
  | some e => (st, [Event.logError e, Event.sleepSec SCANNER_ERROR_BACKOFF])
  | none => runPassBody env k st

/-- `n` iterations of the run loop, accumulating the event trace. -/
def runLoop (env : LoopEnv) (st : DataState) : ℕ → DataState × List Event
  | 0 => (st, [])
  | n + 1 =>
    let r := runLoop env st n
    let s := loopStep env n r.1
    (s.1, r.2 ++ s.2)

/-- The target comment ids of the order submissions in a trace. -/
def submittedIds (evs : List Event) : List String :=
  evs.filterMap (fun e =>
    match e with | .submit cid _ _ => some cid | _ => none)

/-- Is an event an outcome notification? -/
def isNotify : Event → Bool :=
  fun e => match e with | .notify _ => true | _ => false

/-- The eligible replies of one pass: per monitored thread, the
`get_new_comments` result against the pass-start snapshot and whitelist,
concatenated in listed order. -/
def passEligible (env : LoopEnv) (k : ℕ) (st : DataState) :
    List RedditComment :=
  (st.posts.map (fun url =>
    getNewComments st.processedComments
      (getFullWhitelist env.excelRows st.whitelist)
      (env.now k) (env.fetch k url))).flatten

/-- The guard of `cmd_interval` (telegram_bot.py lines 382–391): scan
intervals under 30 s are rejected. -/
def setScanInterval (n : ℤ) (st : DataState) : Except String DataState :=
  if n < 30 then .error "Error: Minimum is 30 seconds"
  else .ok { st with scanInterval := n.toNat }

/-! ## telegram_bot.py lines 126–129: the whitelist read-order bug

The pass prelude is modelled at the granularity of the two local variables
involved, with Python's rule that reading a local before its assignment in
the same function raises `UnboundLocalError` (a `NameError`). -/

inductive PyExc where
  | nameError (var : String)
deriving DecidableEq

/-- The three statements of the pass prelude that matter:
`posts = data.get("posts", [])` (line 126), the `[SCAN]` log line reading
`len(posts)` and `len(whitelist)` (line 127), and
`whitelist = get_full_whitelist()` (line 129). -/
inductive PassStmt where
  | assignPosts
  | logScanLine
  | assignWhitelist
deriving DecidableEq

/-- Which prelude locals are bound so far. -/
structure PreludeState where
  posts? : Option (List String)
  whitelist? : Option (List String)
deriving DecidableEq

/-- Execute one prelude statement: assignments bind their local; the log
line reads both locals and raises `NameError` on an unbound one. -/
def runPassStmt (excelRows : List String) (st : DataState) :
    PreludeState → PassStmt → Except PyExc PreludeState
  | ps, .assignPosts => .ok { ps with posts? := some st.posts }
  | ps, .assignWhitelist =>
    .ok { ps with whitelist? := some (getFullWhitelist excelRows st.whitelist) }
  | ps, .logScanLine =>
    match ps.posts?, ps.whitelist? with
    | some _, some _ => .ok ps
    | none, _ => .error (.nameError "posts")
    | some _, none => .error (.nameError "whitelist")

/-- Run a prelude statement sequence from the empty binding environment. -/
def runPrelude (excelRows : List String) (st : DataState)
    (stmts : List PassStmt) : Except PyExc PreludeState :=
  stmts.foldlM (runPassStmt excelRows st) { posts? := none, whitelist? := none }

/-- The statement order as written in telegram_bot.py lines 126–129
(= `old_buggy` in fix_bug.py): the log line runs before `whitelist` is
assigned. -/
def buggyPreludeOrder : List PassStmt :=
  [.assignPosts, .logScanLine, .assignWhitelist]

/-- The corrected order recorded as `new_fixed` in fix_bug.py lines 9–12:
assign `whitelist`, then log. -/
def fixedPreludeOrder : List PassStmt :=
  [.assignPosts, .assignWhitelist, .logScanLine]

/-! ## reddit_scanner.py: get_comments / _extract_comments

The fetched JSON document is modelled as a dynamically-typed value; network
and parse failures of `self.session.get` / `response.json()` are an
`Except` environment. -/

/-- A Python/JSON value as `_extract_comments` walks it. -/
inductive PyVal where
  | pstr (s : String)
  | pnum (q : ℚ)
  | pbool (b : Bool)
  | plist (xs : List PyVal)
  | pdict (kvs : List (String × PyVal))
  | pnone

/-- Python `v == s` for a string literal `s`: true exactly when `v` is that
string (Python equality across types is `False` for the types present here). -/
def pyEqStr (v : PyVal) (s : String) : Bool :=
  match v with
  | .pstr t => t == s
  | _ => false

/-- Python truthiness. -/
def truthy : PyVal → Bool
  | .pstr s => s ≠ ""
  | .pnum q => q ≠ 0
  | .pbool b => b
  | .plist xs => !xs.isEmpty
  | .pdict kvs => !kvs.isEmpty
  | .pnone => false

/-- `d.get(k)`. -/
def pyGet (kvs : List (String × PyVal)) (k : String) : Option PyVal :=
  List.lookup k kvs

/-- `d.get(k, default)`. -/
def pyGetD (kvs : List (String × PyVal)) (k : String) (d : PyVal) : PyVal :=
  (pyGet kvs k).getD d

/-- `isinstance(x, (dict, list))`. -/
def isDictOrList : PyVal → Bool
  | .pdict _ => true
  | .plist _ => true
  | _ => false

/-- A comment as `_extract_comments` constructs it (reddit_scanner.py lines
84–90); the field values are the raw JSON values. -/
structure RedditCommentPy where
  id : PyVal
  author : PyVal
  body : PyVal
  permalink : PyVal
  created_utc : PyVal

theorem sizeOf_lookup {kvs : List (String × PyVal)} {k : String} {v : PyVal}
    (h : List.lookup k kvs = some v) : sizeOf v < sizeOf kvs := by
  induction kvs with
  | nil => simp [List.lookup] at h
  | cons a t ih =>
    rw [List.lookup] at h
    by_cases hk : k == a.1
    · simp [hk] at h
      subst h
      rcases a with ⟨k', v'⟩
      simp
      omega
    · simp [hk] at h
      have := ih h
      simp
      omega

/-- `_extract_comments` (reddit_scanner.py lines 79–105), returning the
accumulated comment list.  A `t1` node records its comment when the id is
truthy and the author is not `'[deleted]'`, then recurses into `replies`
when that is a truthy dict or list; a `Listing` node recurses into its
children; a list recurses into its items.  (Where CPython would raise on a
structurally malformed node — e.g. a non-dict `data` field — the walk yields
nothing; such an exception is caught by `get_comments` and turned into `[]`
anyway.) -/
def extractComments : PyVal → List RedditCommentPy
  | .pdict kvs =>
    if (pyGet kvs "kind").any (pyEqStr · "t1") then
      match h0 : pyGet kvs "data" with
      | some (.pdict cd) =>
        let c : RedditCommentPy :=
          { id := pyGetD cd "id" (.pstr ""),
            author := pyGetD cd "author" (.pstr "[deleted]"),
            body := pyGetD cd "body" (.pstr ""),
            permalink := pyGetD cd "permalink" (.pstr ""),
            created_utc := pyGetD cd "created_utc" (.pnum 0) }
        (if truthy c.id && !(pyEqStr c.author "[deleted]") then [c] else []) ++
          (match h1 : pyGet cd "replies" with
           | some rv =>
             if truthy rv && !(pyEqStr rv "") && isDictOrList rv then
               extractComments rv
             else []
           | none => [])
      | _ => []
    else if (pyGet kvs "kind").any (pyEqStr · "Listing") then
      match h0 : pyGet kvs "data" with
      | some (.pdict dkvs) =>
        match h1 : pyGet dkvs "children" with
        | some (.plist cs) =>
          (cs.attach.map (fun x => extractComments x.1)).flatten
        | _ => []
      | _ => []
    else []
  | .plist xs => (xs.attach.map (fun x => extractComments x.1)).flatten
  | _ => []
termination_by v => sizeOf v
decreasing_by
  · have hd := sizeOf_lookup h0
    have hr := sizeOf_lookup h1
    simp at hd
    simp
    omega
  · have hd := sizeOf_lookup h0
    have hc := sizeOf_lookup h1
    have hm := List.sizeOf_lt_of_mem x.2
    simp at hd hc
    simp
    omega
  · have hm := List.sizeOf_lt_of_mem x.2
    simp
    omega

/-- `get_comments` (reddit_scanner.py lines 107–144) with the network and
JSON parse abstracted: an exception from the request/parse yields `[]`
(lines 139–144); on success, a top-level list of length > 1 is unpacked to
its second element (the comments listing), otherwise the whole document is
walked. -/
def getComments (resp : Except String PyVal) : List RedditCommentPy :=
  match resp with
  | .error _ => []
  | .ok d =>
    match d with
    | .plist (_ :: second :: _) => extractComments second
    | _ => extractComments d

/-! ## Concrete fixtures used by counterexamples and witnesses -/

/-- Does a `persist` event carry a ledger that already contains `cid`? -/
def persistHasId (cid : String) (e : Event) : Bool :=
  match e with
  | .persist snap => snap.processedComments.contains cid
  | _ => false

/-- A comment fetched identically for two monitored thread URLs. -/
def cDup : RedditComment :=
  { id := "dup1", author := "someuser", body := "hey",
    permalink := "/r/x/c/dup1", created_utc := 0 }

/-- Environment where two monitored URLs resolve to the same thread. -/
def envDup : LoopEnv :=
  { fetch := fun _ _ => [cDup], api := fun _ => [("order", "101")],
    excelRows := [], now := fun _ => 3600, today := fun _ => "2026-01-01",
    notifyEnabled := true, passExc := fun _ => none }

/-- Store listing the same thread under two URL spellings. -/
def stDup : DataState :=
  { initialData with posts := ["https://t/1", "https://t/1/"] }

def cAMO : RedditComment :=
  { id := "amo1", author := "alice", body := "b", permalink := "/amo",
    created_utc := 0 }

def envAMO : LoopEnv :=
  { fetch := fun _ _ => [cAMO], api := fun _ => [("order", "1")],
    excelRows := [], now := fun _ => 3600, today := fun _ => "d",
    notifyEnabled := true, passExc := fun _ => none }

def stAMO : DataState :=
  { initialData with posts := ["P"], processedComments := ["old1"] }

def cLW : RedditComment :=
  { id := "lw1", author := "alice", body := "b", permalink := "/lw",
    created_utc := 0 }

def envLW : LoopEnv :=
  { fetch := fun _ _ => [cLW], api := fun _ => [("order", "1")],
    excelRows := [], now := fun _ => 3600, today := fun _ => "d",
    notifyEnabled := true, passExc := fun _ => none }

def stLW : DataState := { initialData with posts := ["P"] }

def c3a : RedditComment :=
  { id := "idA", author := "Mod1", body := "x", permalink := "/pA",
    created_utc := 0 }

def c3b : RedditComment :=
  { id := "idB", author := "Spammer", body := "y", permalink := "/pB",
    created_utc := 0 }

def c3c : RedditComment :=
  { id := "idC", author := "other", body := "z", permalink := "/pC",
    created_utc := 0 }

/-- A comment aged exactly 24 hours at `now = 86400`. -/
def c6Ex : RedditComment :=
  { id := "c24", author := "alice", body := "b", permalink := "/p24",
    created_utc := 0 }

def c6W : RedditComment :=
  { id := "cW6", author := "alice", body := "b", permalink := "/p6",
    created_utc := 0 }

def envC4 : LoopEnv :=
  { fetch := fun _ _ => [], api := fun _ => [("order", "7")],
    excelRows := [], now := fun _ => 0, today := fun _ => "d",
    notifyEnabled := true, passExc := fun _ => none }

def cC4 : RedditComment :=
  { id := "x1", author := "bob", body := "b", permalink := "/c4",
    created_utc := 0 }

/-- Environment whose every pass raises an unhandled exception. -/
def envExc : LoopEnv :=
  { fetch := fun _ _ => [], api := fun _ => [], excelRows := [],
    now := fun _ => 0, today := fun _ => "d", notifyEnabled := false,
    passExc := fun _ => some "boom" }

/-- A 403 response with a JSON error body: classified by the Gateway as an
upstream rejection (not a mitigation block), yet status 403 triggers the
re-warm retry. -/
def resp403Json : HttpResponse :=
  { statusCode := 403, contentType := "application/json",
    body := "error payload", cfRayHeader := false,
    json? := some [("error", "Insufficient balance")] }

def netC7 : ℕ → Except String HttpResponse := fun _ => .ok resp403Json

def respOk : HttpResponse :=
  { statusCode := 200, contentType := "application/json", body := "ok",
    cfRayHeader := false, json? := some [("balance", "5")] }

def netOk : ℕ → Except String HttpResponse := fun _ => .ok respOk

def respOrder : HttpResponse :=
  { statusCode := 200, contentType := "application/json", body := "orderbody",
    cfRayHeader := false, json? := some [("order", "1234")] }

/-- A single `t1` node with a valid id and author. -/
def vT1 : PyVal :=
  .pdict [("kind", .pstr "t1"),
    ("data", .pdict [("id", .pstr "c1"), ("author", .pstr "alice"),
      ("body", .pstr "hi"), ("permalink", .pstr "/p"),
      ("created_utc", .pnum 0)])]

def cC8 : RedditCommentPy :=
  { id := .pstr "c1", author := .pstr "alice", body := .pstr "hi",
    permalink := .pstr "/p", created_utc := .pnum 0 }

/-! ### Ledger lemmas -/

theorem lastN_of_length_le {l : List α} {n : ℕ} (h : l.length ≤ n) :
    lastN n l = l := by
  simp [lastN, Nat.sub_eq_zero_of_le h]

theorem length_lastN_le (n : ℕ) (l : List α) : (lastN n l).length ≤ n := by
  simp [lastN]
  omega

theorem lastN_append_lastN (n : ℕ) (xs ys : List α) :
    lastN n (lastN n xs ++ ys) = lastN n (xs ++ ys) := by
  unfold lastN
  rw [List.drop_append_eq_append_drop, List.drop_append_eq_append_drop,
    List.drop_drop]
  simp only [List.length_append, List.length_drop]
  congr 2 <;> omega

theorem foldl_appendTrim (ids : List String) :
    ∀ s : List String, s.length ≤ 1000 →
      List.foldl appendTrim s ids = lastN 1000 (s ++ ids) := by
  induction ids with
  | nil => intro s hs; simp [lastN_of_length_le hs]
  | cons a ids ih =>
    intro s hs
    have h1 : (appendTrim s a).length ≤ 1000 := length_lastN_le _ _
    calc List.foldl appendTrim s (a :: ids)
        = List.foldl appendTrim (appendTrim s a) ids := rfl
      _ = lastN 1000 (appendTrim s a ++ ids) := ih _ h1
      _ = lastN 1000 ((s ++ [a]) ++ ids) := lastN_append_lastN _ _ _
      _ = lastN 1000 (s ++ a :: ids) := by
            simp only [List.append_assoc, List.singleton_append]

theorem foldl_appendTrim_no_evict (ids : List String) :
    ∀ s : List String, s.length + ids.length ≤ 1000 →
      List.foldl appendTrim s ids = s ++ ids := by
  intro s h
  rw [foldl_appendTrim ids s (by omega), lastN_of_length_le]
  simp; omega

/-! ### get_new_comments lemmas -/

theorem getNewCommentsAux_eq_filter (processed wlLower : List String) (now : ℚ) :
    ∀ comments : List RedditComment,
      getNewCommentsAux processed wlLower now comments =
        comments.filter (fun c =>
          !(decide (c.id ∈ processed)) && !(decide (strLower c.author ∈ wlLower)) &&
          !(decide (RedditComment.ageHours now c > 24))) := by
  intro comments
  induction comments with
  | nil => rfl
  | cons c rest ih =>
    by_cases h1 : c.id ∈ processed
    · simp [getNewCommentsAux, h1, List.filter, ih]
    · by_cases h2 : strLower c.author ∈ wlLower
      · simp [getNewCommentsAux, h1, h2, List.filter, ih]
      · by_cases h3 : RedditComment.ageHours now c > 24
        · simp [getNewCommentsAux, h1, h2, h3, List.filter, ih]
        · simp [getNewCommentsAux, h1, h2, h3, List.filter, ih]

theorem getNewComments_eq_filter (processed whitelist : List String) (now : ℚ)
    (comments : List RedditComment) :
    getNewComments processed whitelist now comments =
      comments.filter (eligibleB processed whitelist now) := by
  unfold getNewComments eligibleB
  exact getNewCommentsAux_eq_filter _ _ _ _

theorem getNewComments_sublist (processed whitelist : List String) (now : ℚ)
    (comments : List RedditComment) :
    (getNewComments processed whitelist now comments).Sublist comments := by
  rw [getNewComments_eq_filter]
  exact List.filter_sublist comments

theorem mem_getNewComments (processed whitelist : List String) (now : ℚ)
    (comments : List RedditComment) (c : RedditComment) :
    c ∈ getNewComments processed whitelist now comments ↔
      c ∈ comments ∧ c.id ∉ processed ∧
        strLower c.author ∉ whitelist.map strLower ∧
        RedditComment.ageHours now c ≤ 24 := by
  rw [getNewComments_eq_filter, List.mem_filter, eligibleB]
  simp [not_lt, and_assoc]

theorem getNewComments_id_not_processed (processed whitelist : List String)
    (now : ℚ) (comments : List RedditComment) (c : RedditComment)
    (h : c ∈ getNewComments processed whitelist now comments) :
    c.id ∉ processed :=
  ((mem_getNewComments processed whitelist now comments c).1 h).2.1

/-! ### Dispatch-loop structural lemmas -/

theorem submittedIds_append (a b : List Event) :
    submittedIds (a ++ b) = submittedIds a ++ submittedIds b := by
  simp [submittedIds]

theorem submittedIds_nil : submittedIds [] = [] := rfl

theorem submittedIds_cons (e : Event) (l : List Event) :
    submittedIds (e :: l) =
      (match e with | .submit cid _ _ => [cid] | _ => []) ++ submittedIds l := by
  cases e <;> simp [submittedIds]

theorem handleComment_spec (env : LoopEnv) (dv : ℤ) (st : DataState)
    (c : RedditComment) :
    (handleComment env dv st c).1.processedComments =
        appendTrim st.processedComments c.id ∧
      (handleComment env dv st c).1.posts = st.posts ∧
      (handleComment env dv st c).1.whitelist = st.whitelist ∧
      (handleComment env dv st c).1.scanInterval = st.scanInterval ∧
      (handleComment env dv st c).1.downvotesPerComment = st.downvotesPerComment ∧
      submittedIds (handleComment env dv st c).2 = [c.id] := by
  by_cases h : ((env.api c.fullUrl).lookup "order").isSome <;>
    by_cases hn : env.notifyEnabled <;>
      simp [handleComment, submittedIds, h, hn]

theorem handleComments_spec (env : LoopEnv) (dv : ℤ) :
    ∀ (cs : List RedditComment) (st : DataState),
      (handleComments env dv st cs).1.processedComments =
          List.foldl appendTrim st.processedComments (cs.map (·.id)) ∧
        (handleComments env dv st cs).1.posts = st.posts ∧
        (handleComments env dv st cs).1.whitelist = st.whitelist ∧
        (handleComments env dv st cs).1.scanInterval = st.scanInterval ∧
        (handleComments env dv st cs).1.downvotesPerComment =
          st.downvotesPerComment ∧
        submittedIds (handleComments env dv st cs).2 = cs.map (·.id) := by
  intro cs
  induction cs with
  | nil => intro st; simp [handleComments, submittedIds]
  | cons c cs ih =>
    intro st
    obtain ⟨h1, h2, h3, h4, h5, h6⟩ := handleComment_spec env dv st c
    obtain ⟨g1, g2, g3, g4, g5, g6⟩ := ih (handleComment env dv st c).1
    refine ⟨?_, ?_, ?_, ?_, ?_, ?_⟩ <;>
      simp [handleComments, submittedIds_append, g1, g2, g3, g4, g5, g6,
        h1, h2, h3, h4, h5, h6]

theorem scanPosts_spec (env : LoopEnv) (k : ℕ)
    (snapshot whitelist : List String) (dv : ℤ) :
    ∀ (posts : List String) (st : DataState),
      (scanPosts env k snapshot whitelist dv st posts).1.processedComments =
          List.foldl appendTrim st.processedComments
            (((posts.map (fun url =>
              getNewComments snapshot whitelist (env.now k)
                (env.fetch k url))).flatten).map (·.id)) ∧
        (scanPosts env k snapshot whitelist dv st posts).1.posts = st.posts ∧
        (scanPosts env k snapshot whitelist dv st posts).1.whitelist =
          st.whitelist ∧
        submittedIds (scanPosts env k snapshot whitelist dv st posts).2 =
          ((posts.map (fun url =>
            getNewComments snapshot whitelist (env.now k)
              (env.fetch k url))).flatten).map (·.id) := by
  intro posts
  induction posts with
  | nil => intro st; simp [scanPosts, submittedIds]
  | cons url rest ih =>
    intro st
    obtain ⟨h1, h2, h3, h4, h5, h6⟩ := handleComments_spec env dv
      (getNewComments snapshot whitelist (env.now k) (env.fetch k url)) st
    obtain ⟨g1, g2, g3, g4⟩ := ih (handleComments env dv st
      (getNewComments snapshot whitelist (env.now k) (env.fetch k url))).1
    refine ⟨?_, ?_, ?_, ?_⟩ <;>
      simp [scanPosts, submittedIds_append, g1, g2, g3, g4,
        h1, h2, h3, h6, List.foldl_append]

theorem resetDaily_spec (today : String) (st : DataState) :
    (resetDailyStatsIfNeeded today st).1.posts = st.posts ∧
      (resetDailyStatsIfNeeded today st).1.whitelist = st.whitelist ∧
      (resetDailyStatsIfNeeded today st).1.processedComments =
        st.processedComments ∧
      (resetDailyStatsIfNeeded today st).1.scanInterval = st.scanInterval ∧
      (resetDailyStatsIfNeeded today st).1.downvotesPerComment =
        st.downvotesPerComment ∧
      submittedIds (resetDailyStatsIfNeeded today st).2 = [] := by
  by_cases h : st.lastReset ≠ today <;>
    simp [resetDailyStatsIfNeeded, h, submittedIds]

theorem runPassBody_spec (env : LoopEnv) (k : ℕ) (st : DataState) :
    (runPassBody env k st).1.processedComments =
        List.foldl appendTrim st.processedComments
          ((passEligible env k st).map (·.id)) ∧
      (runPassBody env k st).1.posts = st.posts ∧
      (runPassBody env k st).1.whitelist = st.whitelist ∧
      submittedIds (runPassBody env k st).2 =
        (passEligible env k st).map (·.id) := by
  obtain ⟨r1, r2, r3, r4, r5, r6⟩ := resetDaily_spec (env.today k) st
  obtain ⟨s1, s2, s3, s4⟩ := scanPosts_spec env k
    (resetDailyStatsIfNeeded (env.today k) st).1.processedComments
    (getFullWhitelist env.excelRows
      (resetDailyStatsIfNeeded (env.today k) st).1.whitelist)
    (resetDailyStatsIfNeeded (env.today k) st).1.downvotesPerComment
    (resetDailyStatsIfNeeded (env.today k) st).1.posts
    (resetDailyStatsIfNeeded (env.today k) st).1
  rw [r1, r2, r3, r5] at s1 s2 s3 s4
  refine ⟨?_, ?_, ?_, ?_⟩
  · simp only [runPassBody, passEligible]
    rw [r1, r2, r3, r5, s1]
  · simp only [runPassBody]
    rw [r1, r2, r3, r5, s2]
  · simp only [runPassBody]
    rw [r1, r2, r3, r5, s3]
  · simp only [runPassBody, passEligible]
    rw [submittedIds_append, r6, submittedIds_cons]
    simp only [List.nil_append]
    rw [submittedIds_append, r1, r2, r3, r5, s4]
    simp [submittedIds]

theorem loopStep_spec (env : LoopEnv) (k : ℕ) (st : DataState) :
    (loopStep env k st).1.processedComments =
        List.foldl appendTrim st.processedComments
          (submittedIds (loopStep env k st).2) ∧
      (loopStep env k st).1.posts = st.posts ∧
      (loopStep env k st).1.whitelist = st.whitelist := by
  cases hexc : env.passExc k with
  | some e => simp [loopStep, hexc, submittedIds]
  | none =>
    obtain ⟨h1, h2, h3, h4⟩ := runPassBody_spec env k st
    simp [loopStep, hexc, h1, h2, h3, h4]

theorem loopStep_submitted_exc (env : LoopEnv) (k : ℕ) (st : DataState)
    (e : String) (h : env.passExc k = some e) :
    submittedIds (loopStep env k st).2 = [] := by
  simp [loopStep, h, submittedIds]

theorem loopStep_submitted_none (env : LoopEnv) (k : ℕ) (st : DataState)
    (h : env.passExc k = none) :
    submittedIds (loopStep env k st).2 = (passEligible env k st).map (·.id) := by
  simp [loopStep, h, (runPassBody_spec env k st).2.2.2]

theorem runLoop_trace_succ (env : LoopEnv) (st0 : DataState) (n : ℕ) :
    (runLoop env st0 (n + 1)).2 =
      (runLoop env st0 n).2 ++ (loopStep env n (runLoop env st0 n).1).2 := rfl

theorem runLoop_spec (env : LoopEnv) (st0 : DataState) :
    ∀ n : ℕ,
      (runLoop env st0 n).1.posts = st0.posts ∧
        (runLoop env st0 n).1.whitelist = st0.whitelist ∧
        (runLoop env st0 n).1.processedComments =
          List.foldl appendTrim st0.processedComments
            (submittedIds (runLoop env st0 n).2) := by
  intro n
  induction n with
  | zero => simp [runLoop, submittedIds]
  | succ n ih =>
    obtain ⟨ih1, ih2, ih3⟩ := ih
    obtain ⟨l1, l2, l3⟩ := loopStep_spec env n (runLoop env st0 n).1
    refine ⟨?_, ?_, ?_⟩
    · show (loopStep env n (runLoop env st0 n).1).1.posts = st0.posts
      rw [l2, ih1]
    · show (loopStep env n (runLoop env st0 n).1).1.whitelist = st0.whitelist
      rw [l3, ih2]
    · show (loopStep env n (runLoop env st0 n).1).1.processedComments = _
      rw [l1, ih3, runLoop_trace_succ, submittedIds_append, List.foldl_append]

theorem passEligible_id_not_in_snapshot (env : LoopEnv) (k : ℕ)
    (st : DataState) (cid : String)
    (h : cid ∈ (passEligible env k st).map (·.id)) :
    cid ∉ st.processedComments := by
  unfold passEligible at h
  rw [List.mem_map] at h
  obtain ⟨c, hc, rfl⟩ := h
  rw [List.mem_flatten] at hc
  obtain ⟨l, hl, hcl⟩ := hc
  rw [List.mem_map] at hl
  obtain ⟨url, hu, rfl⟩ := hl
  exact getNewComments_id_not_processed _ _ _ _ _ hcl

theorem flatten_map_sublist {α β : Type} (l : List β) (f g : β → List α)
    (h : ∀ x, (f x).Sublist (g x)) :
    ((l.map f).flatten).Sublist ((l.map g).flatten) := by
  induction l with
  | nil => simp
  | cons a t ih => simpa using List.Sublist.append (h a) ih

theorem passEligible_ids_sublist (env : LoopEnv) (k : ℕ) (st : DataState) :
    ((passEligible env k st).map (·.id)).Sublist
      (((st.posts.map (env.fetch k)).flatten).map (·.id)) := by
  have h := flatten_map_sublist st.posts
    (fun url => getNewComments st.processedComments
      (getFullWhitelist env.excelRows st.whitelist) (env.now k)
      (env.fetch k url))
    (env.fetch k)
    (fun url => getNewComments_sublist _ _ _ _)
  exact List.Sublist.map (·.id) h

theorem runLoop_at_most_once_aux (env : LoopEnv) (st0 : DataState)
    (h0 : st0.processedComments.length ≤ 1000) :
    ∀ n : ℕ,
      (∀ k, k < n →
        (((st0.posts.map (env.fetch k)).flatten).map (·.id)).Nodup) →
      st0.processedComments.length +
          (submittedIds (runLoop env st0 n).2).length ≤ 1000 →
      (submittedIds (runLoop env st0 n).2).Nodup ∧
        ∀ cid ∈ st0.processedComments,
          cid ∉ submittedIds (runLoop env st0 n).2 := by
  intro n
  induction n with
  | zero => intro _ _; simp [runLoop, submittedIds]
  | succ n ih =>
    intro hdup hcap
    have hsplit : submittedIds (runLoop env st0 (n + 1)).2 =
        submittedIds (runLoop env st0 n).2 ++
          submittedIds (loopStep env n (runLoop env st0 n).1).2 := by
      rw [runLoop_trace_succ, submittedIds_append]
    have hcap' : st0.processedComments.length +
        (submittedIds (runLoop env st0 n).2).length ≤ 1000 := by
      rw [hsplit] at hcap
      simp only [List.length_append] at hcap
      omega
    obtain ⟨ihnodup, ihexcl⟩ := ih (fun k hk => hdup k (by omega)) hcap'
    obtain ⟨hposts, hwl, hproc⟩ := runLoop_spec env st0 n
    have hprocEq : (runLoop env st0 n).1.processedComments =
        st0.processedComments ++ submittedIds (runLoop env st0 n).2 := by
      rw [hproc, foldl_appendTrim_no_evict _ _ hcap']
    cases hexc : env.passExc n with
    | some e =>
      rw [hsplit, loopStep_submitted_exc env n _ e hexc, List.append_nil]
      exact ⟨ihnodup, ihexcl⟩
    | none =>
      have hSpEq : submittedIds (loopStep env n (runLoop env st0 n).1).2 =
          (passEligible env n (runLoop env st0 n).1).map (·.id) :=
        loopStep_submitted_none env n _ hexc
      have hSpNotIn : ∀ cid ∈ submittedIds (loopStep env n (runLoop env st0 n).1).2,
          cid ∉ (runLoop env st0 n).1.processedComments := by
        intro cid hcid
        rw [hSpEq] at hcid
        exact passEligible_id_not_in_snapshot env n _ cid hcid
      have hSpNodup : (submittedIds (loopStep env n (runLoop env st0 n).1).2).Nodup := by
        rw [hSpEq]
        have hsub := passEligible_ids_sublist env n (runLoop env st0 n).1
        rw [hposts] at hsub
        exact List.Nodup.sublist hsub (hdup n (by omega))
      constructor
      · rw [hsplit]
        refine List.Nodup.append ihnodup hSpNodup ?_
        intro a haSn haSp
        have hnot := hSpNotIn a haSp
        rw [hprocEq] at hnot
        exact hnot (List.mem_append_right _ haSn)
      · intro cid hcid
        rw [hsplit]
        intro hmem
        rcases List.mem_append.1 hmem with hm | hm
        · exact ihexcl cid hcid hm
        · exact hSpNotIn cid hm (by rw [hprocEq]; exact List.mem_append_left _ hcid)

theorem self_mem_appendTrim (l : List String) (cid : String) :
    cid ∈ appendTrim l cid := by
  unfold appendTrim lastN
  rw [List.drop_append_eq_append_drop]
  apply List.mem_append_right
  have h : (l ++ [cid]).length - 1000 - l.length = 0 := by
    simp only [List.length_append, List.length_cons, List.length_nil]
    omega
  rw [h]
  simp

theorem handleComment_trace (env : LoopEnv) (dv : ℤ) (st : DataState)
    (c : RedditComment) (hn : env.notifyEnabled = true) :
    ∃ msg, (handleComment env dv st c).2 =
      [Event.submit c.id c.fullUrl (downvoteQty (some dv)),
       Event.persist (handleComment env dv st c).1,
       Event.notify msg, Event.sleepSec 2] := by
  by_cases h : ((env.api c.fullUrl).lookup "order").isSome
  · refine ⟨"[DOWNVOTED] u/" ++ c.author ++ "\nOrder #" ++
      ((env.api c.fullUrl).lookup "order").getD "" ++ "\nDownvotes: " ++
      toString dv, ?_⟩
    simp [handleComment, h, hn]
  · refine ⟨"[FAILED] u/" ++ c.author ++ "\n" ++
      ((env.api c.fullUrl).lookup "error").getD "Unknown", ?_⟩
    simp [handleComment, h, hn]

/-! ## Claim theorems -/

/-- C2 (code_bug): as written (telegram_bot.py lines 126–129), the pass body
reads `whitelist` in the `[SCAN]` log line one statement before assigning it,
so every pass raises `UnboundLocalError` (a `NameError`) on `whitelist` and
never reaches the fetch-and-filter step; the corrected order recorded in
fix_bug.py (`new_fixed`) computes the whitelist first and succeeds. -/
theorem whitelist_read_order_bug :
    (∀ (excelRows : List String) (st : DataState),
      runPrelude excelRows st buggyPreludeOrder =
        .error (.nameError "whitelist")) ∧
      runPrelude [] initialData fixedPreludeOrder =
        .ok { posts? := some [], whitelist? := some [] } := by
  exact ⟨fun excelRows st => rfl, rfl⟩

/-- C3: the eligibility filter returns exactly the fetched comments that are
unprocessed, whose lower-cased author is not in the combined
(imported ∪ stored, case-insensitive) whitelist, and whose age is at most
24 hours — applied per comment in that order — preserving fetched order and
leaving the processed set untouched. -/
theorem getNewComments_eligibility
    (excelRows jsonWhitelist processed : List String) (now : ℚ)
    (comments : List RedditComment) :
    getNewComments processed (getFullWhitelist excelRows jsonWhitelist) now
        comments =
      comments.filter
        (eligibleB processed (getFullWhitelist excelRows jsonWhitelist) now) ∧
    (getNewComments processed (getFullWhitelist excelRows jsonWhitelist) now
        comments).Sublist comments ∧
    ∀ c : RedditComment,
      c ∈ getNewComments processed (getFullWhitelist excelRows jsonWhitelist)
          now comments ↔
        c ∈ comments ∧ c.id ∉ processed ∧
          (¬ ∃ u ∈ getFullWhitelist excelRows jsonWhitelist,
            strLower u = strLower c.author) ∧
          RedditComment.ageHours now c ≤ 24 := by
  refine ⟨getNewComments_eq_filter _ _ _ _, getNewComments_sublist _ _ _ _, ?_⟩
  intro c
  rw [mem_getNewComments]
  constructor
  · rintro ⟨h1, h2, h3, h4⟩
    refine ⟨h1, h2, ?_, h4⟩
    rintro ⟨u, hu, he⟩
    exact h3 (List.mem_map.2 ⟨u, hu, he⟩)
  · rintro ⟨h1, h2, h3, h4⟩
    refine ⟨h1, h2, ?_, h4⟩
    intro hmem
    obtain ⟨u, hu, he⟩ := List.mem_map.1 hmem
    exact h3 ⟨u, hu, he⟩

theorem getNewComments_eligibility_witness :
    getNewComments ["idC"] (getFullWhitelist ["Mod1 "] ["HELPER"]) 3600
        [c3a, c3b, c3c] = [c3b] ∧
      c3b ∈ getNewComments ["idC"] (getFullWhitelist ["Mod1 "] ["HELPER"]) 3600
        [c3a, c3b, c3c] := by
  constructor
  · norm_num [getNewComments, getNewCommentsAux, RedditComment.ageHours,
      getFullWhitelist, loadWhitelistFromExcel, c3a, c3b, c3c, strLower,
      strStrip] <;> decide
  · exact (getNewComments_eligibility ["Mod1 "] ["HELPER"] ["idC"] 3600
      [c3a, c3b, c3c]).2.2 c3b |>.mpr
      ⟨by decide, by decide, by decide,
       by norm_num [RedditComment.ageHours, c3b]⟩

/-- C5: after any number of appends performed by the loop — over any
environment, any number of passes, and any persisted starting ledger of
valid (≤ 1000) size — the ledger equals the last 1000 entries of the initial
ledger followed by the submitted ids in append order, and its length is at
most 1000. -/
theorem ledger_cap_invariant (env : LoopEnv) (st0 : DataState) (n : ℕ)
    (h : st0.processedComments.length ≤ 1000) :
    (runLoop env st0 n).1.processedComments =
        lastN 1000 (st0.processedComments ++
          submittedIds (runLoop env st0 n).2) ∧
      (runLoop env st0 n).1.processedComments.length ≤ 1000 := by
  have hp := (runLoop_spec env st0 n).2.2
  rw [hp, foldl_appendTrim _ _ h]
  exact ⟨rfl, length_lastN_le _ _⟩

theorem ledger_cap_invariant_witness :
    stLW.processedComments.length ≤ 1000 ∧
      (runLoop envLW stLW 1).1.processedComments =
        lastN 1000 (stLW.processedComments ++
          submittedIds (runLoop envLW stLW 1).2) ∧
      (runLoop envLW stLW 1).1.processedComments.length ≤ 1000 := by
  have h := ledger_cap_invariant envLW stLW 1 (by decide)
  exact ⟨by decide, h.1, h.2⟩

/-- C6 counterexample: the claim says a comment aged exactly 24 hours is
excluded, but `age_hours > 24` is strict — at exactly 24 h
(`now - created_utc = 86400`) the comment passes the filter. -/
theorem freshness_exact_24h_not_excluded :
    RedditComment.ageHours 86400 c6Ex = 24 ∧
      getNewComments [] [] 86400 [c6Ex] = [c6Ex] := by
  constructor
  · norm_num [RedditComment.ageHours, c6Ex]
  · norm_num [getNewComments, getNewCommentsAux, RedditComment.ageHours, c6Ex]

/-- C6 (amended): the freshness bound is strict — an unprocessed, untrusted
comment is included whenever its age is ≤ 24 h (so exactly 24 h is included,
and one second under is included) and excluded exactly when its age
exceeds 24 h. -/
theorem freshness_boundary (processed wl : List String) (now : ℚ)
    (c : RedditComment) (h1 : c.id ∉ processed)
    (h2 : strLower c.author ∉ wl.map strLower) :
    (RedditComment.ageHours now c ≤ 24 →
      getNewComments processed wl now [c] = [c]) ∧
    (24 < RedditComment.ageHours now c →
      getNewComments processed wl now [c] = []) := by
  constructor
  · intro h3
    simp [getNewComments, getNewCommentsAux, h1, h2, not_lt.2 h3]
  · intro h3
    simp [getNewComments, getNewCommentsAux, h1, h2, h3]

theorem freshness_boundary_witness :
    c6W.id ∉ ([] : List String) ∧
      getNewComments [] [] 86399 [c6W] = [c6W] := by
  refine ⟨by decide, ?_⟩
  exact (freshness_boundary [] [] 86399 c6W (by decide) (by decide)).1
    (by norm_num [RedditComment.ageHours, c6W])

/-- C10 counterexample: with the default (and `cmd_interval`-accepted) scan
interval of 60 s, the fixed error backoff of 30 s is not longer than the
configured normal interval, contradicting the claim's "longer than". -/
theorem backoff_counterexample :
    initialData.scanInterval = 60 ∧
      (∃ st', setScanInterval 60 initialData = .ok st') ∧
      (loopStep envExc 0 initialData).2 =
        [Event.logError "boom", Event.sleepSec SCANNER_ERROR_BACKOFF] ∧
      ¬ (SCANNER_ERROR_BACKOFF > initialData.scanInterval) := by
  refine ⟨rfl, ⟨_, rfl⟩, by decide, by decide⟩

/-- C10 (amended): on an unhandled pass exception the loop logs it, sleeps a
fixed 30 s backoff — which never exceeds (and only at the enforced 30 s
minimum equals) the configured scan interval — leaves the state untouched,
and the loop structurally continues with the next pass. -/
theorem pass_failure_resilience (env : LoopEnv) (k : ℕ) (st : DataState)
    (e : String) (he : env.passExc k = some e) :
    loopStep env k st =
        (st, [Event.logError e, Event.sleepSec SCANNER_ERROR_BACKOFF]) ∧
      SCANNER_ERROR_BACKOFF = 30 ∧
      (∀ m : ℤ, (∃ st', setScanInterval m st = .ok st') →
        (SCANNER_ERROR_BACKOFF : ℤ) ≤ m) ∧
      ∀ (st0 : DataState) (n : ℕ),
        runLoop env st0 (n + 1) =
          ((loopStep env n (runLoop env st0 n).1).1,
            (runLoop env st0 n).2 ++ (loopStep env n (runLoop env st0 n).1).2) := by
  refine ⟨by simp [loopStep, he], rfl, ?_, fun st0 n => rfl⟩
  rintro m ⟨st', hst⟩
  unfold setScanInterval at hst
  by_cases hm : m < 30
  · simp [hm] at hst
  · push_neg at hm
    simpa [SCANNER_ERROR_BACKOFF] using hm

theorem pass_failure_resilience_witness :
    envExc.passExc 0 = some "boom" ∧
      loopStep envExc 0 initialData =
        (initialData,
          [Event.logError "boom", Event.sleepSec SCANNER_ERROR_BACKOFF]) := by
  exact ⟨rfl, (pass_failure_resilience envExc 0 initialData "boom" rfl).1⟩

/-- C1 counterexample: two monitored URLs that resolve to the same thread
(the same comment id is fetched for both) defeat at-most-once within a
single pass — the in-memory snapshot is not refreshed between threads, so
the same id is submitted twice, and the second submission happens although
the id is already in the persisted ledger (a `persist` event carrying it
precedes the second `submit`). -/
theorem at_most_once_counterexample :
    submittedIds (runLoop envDup stDup 1).2 = ["dup1", "dup1"] ∧
      ¬ (submittedIds (runLoop envDup stDup 1).2).Nodup ∧
      ((runLoop envDup stDup 1).2.take 6).any (persistHasId "dup1") = true ∧
      (runLoop envDup stDup 1).2.get? 6 =
        some (Event.submit "dup1" cDup.fullUrl 30) := by
  refine ⟨?_, ?_, ?_, ?_⟩ <;>
    norm_num [runLoop, loopStep, runPassBody, scanPosts, handleComments,
      handleComment, getNewComments, getNewCommentsAux,
      resetDailyStatsIfNeeded, getFullWhitelist, loadWhitelistFromExcel,
      appendTrim, lastN, submittedIds, persistHasId, RedditComment.ageHours,
      RedditComment.fullUrl, downvoteQty, pyOrInt, envDup, stDup, cDup,
      initialData, strLower, strStrip, List.lookup] <;> decide

/-- C1 (amended): an id in the pass-start ledger snapshot is never submitted
in that pass; since the snapshot is not refreshed within a pass and the
ledger is capped at 1000 entries, global at-most-once additionally requires
that (a) the ids fetched across all monitored threads within each single
pass are pairwise distinct and (b) no submitted id is evicted by the cap
(initial ledger length plus total submissions at most 1000).  Under (a) and
(b), over any execution — including one restarted from persisted state —
all submitted comment ids are pairwise distinct and no id already in the
ledger is ever submitted again. -/
theorem at_most_once_amended (env : LoopEnv) (st0 : DataState) (n : ℕ)
    (h0 : st0.processedComments.length ≤ 1000)
    (hdup : ∀ k, k < n →
      (((st0.posts.map (env.fetch k)).flatten).map (·.id)).Nodup)
    (hcap : st0.processedComments.length +
      (submittedIds (runLoop env st0 n).2).length ≤ 1000) :
    (submittedIds (runLoop env st0 n).2).Nodup ∧
      ∀ cid ∈ st0.processedComments,
        cid ∉ submittedIds (runLoop env st0 n).2 :=
  runLoop_at_most_once_aux env st0 h0 n hdup hcap

theorem at_most_once_amended_witness :
    stAMO.processedComments.length ≤ 1000 ∧
      (submittedIds (runLoop envAMO stAMO 1).2).Nodup ∧
      "old1" ∉ submittedIds (runLoop envAMO stAMO 1).2 := by
  have h := at_most_once_amended envAMO stAMO 1 (by decide)
    (fun k hk => by
      have hk0 : k = 0 := by omega
      subst hk0
      decide)
    (by
      norm_num [runLoop, loopStep, runPassBody, scanPosts, handleComments,
        handleComment, getNewComments, getNewCommentsAux,
        resetDailyStatsIfNeeded, getFullWhitelist, loadWhitelistFromExcel,
        appendTrim, lastN, submittedIds, RedditComment.ageHours,
        RedditComment.fullUrl, downvoteQty, pyOrInt, envAMO, stAMO, cAMO,
        initialData, strLower, strStrip, List.lookup] <;> decide)
  exact ⟨by decide, h.1, h.2 "old1" (by decide)⟩

/-- C4: for every reply handled by the loop — whatever the order outcome —
the trace of the per-reply step contains exactly one notification, and any
notification is strictly preceded by a `persist` of the full snapshot whose
ledger is the previous ledger with the reply's id appended and trimmed to
the last 1000 entries (in particular it contains the id). -/
theorem persist_before_notify (env : LoopEnv) (dv : ℤ) (st : DataState)
    (c : RedditComment) (hn : env.notifyEnabled = true) :
    ((handleComment env dv st c).2.filter isNotify).length = 1 ∧
      ∀ (k : ℕ) (m : String),
        (handleComment env dv st c).2.get? k = some (Event.notify m) →
        ∃ j snap, j < k ∧
          (handleComment env dv st c).2.get? j = some (Event.persist snap) ∧
          snap.processedComments = appendTrim st.processedComments c.id ∧
          c.id ∈ snap.processedComments := by
  obtain ⟨msg, htr⟩ := handleComment_trace env dv st c hn
  have hproc : (handleComment env dv st c).1.processedComments =
      appendTrim st.processedComments c.id := (handleComment_spec env dv st c).1
  constructor
  · rw [htr]
    simp [isNotify, List.filter]
  · intro k m hk
    rw [htr] at hk
    rcases k with _ | _ | _ | _ | n
    · simp [List.get?] at hk
    · simp [List.get?] at hk
    · exact ⟨1, (handleComment env dv st c).1, by omega, by simp [htr], hproc,
        by rw [hproc]; exact self_mem_appendTrim _ _⟩
    · simp [List.get?] at hk
    · simp [List.get?] at hk

theorem persist_before_notify_witness :
    envC4.notifyEnabled = true ∧
      ((handleComment envC4 12 initialData cC4).2.filter isNotify).length = 1 := by
  exact ⟨rfl, (persist_before_notify envC4 12 initialData cC4 rfl).1⟩

/-- The `_make_request` attempt loop, unrolled: a first-attempt non-403
response is final; a first-attempt 403 re-warms and retries once; a
first-attempt exception retries once without re-warming; a second-attempt
exception is re-raised. -/
theorem makeRequest_eq (net : ℕ → Except String HttpResponse) :
    makeRequest net =
      match net 0 with
      | .ok r0 =>
        if r0.statusCode = 403 then
          match net 1 with
          | .ok r1 => (.ok (handleResponse r1),
              [.attempt 0, .sleepSec 2, .rewarm, .attempt 1])
          | .error e1 => (.error e1,
              [.attempt 0, .sleepSec 2, .rewarm, .attempt 1])
        else (.ok (handleResponse r0), [.attempt 0])
      | .error _ =>
        match net 1 with
        | .ok r1 => (.ok (handleResponse r1),
            [.attempt 0, .sleepSec 2, .attempt 1])
        | .error e1 => (.error e1, [.attempt 0, .sleepSec 2, .attempt 1]) := by
  unfold makeRequest
  cases h0 : net 0 with
  | ok r0 =>
    by_cases h403 : r0.statusCode = 403
    · cases h1 : net 1 <;> simp [requestAttempts, h0, h1, h403, Except.map]
    · simp [requestAttempts, h0, h403, Except.map]
  | error e0 =>
    cases h1 : net 1 <;> simp [requestAttempts, h0, h1, Except.map]

/-- C7 counterexample: a first-attempt 403 whose body is JSON classifies as
an upstream rejection (not a mitigation block) and is surfaced as-is — yet
the Gateway still resets, re-warms and retries, because the retry trigger is
the bare 403 status: the claim's "if and only if block-classified" fails. -/
theorem gateway_retry_counterexample :
    blockClassified403 resp403Json = false ∧
      handleResponse resp403Json = [("error", "Insufficient balance")] ∧
      ReqEvent.rewarm ∈ (makeRequest netC7).2 ∧
      numAttempts (makeRequest netC7).2 = 2 := by
  refine ⟨by decide, by decide, ?_, ?_⟩ <;>
    · rw [makeRequest_eq]
      decide

/-- C7 (amended): every call makes at most 2 attempts; the reset / re-warm /
retry sequence happens exactly when the first attempt returns a response
with HTTP status 403 (whether that response classifies as a mitigation block
or as an upstream 403 rejection); non-403 responses — successes included —
are never retried; a first-attempt transport exception is retried once after
the fixed delay but without re-warming. -/
theorem gateway_retry_policy (net : ℕ → Except String HttpResponse) :
    numAttempts (makeRequest net).2 ≤ 2 ∧
      (ReqEvent.rewarm ∈ (makeRequest net).2 ↔
        ∃ r, net 0 = .ok r ∧ r.statusCode = 403) ∧
      (∀ r, net 0 = .ok r → r.statusCode ≠ 403 →
        (makeRequest net).2 = [.attempt 0] ∧
          (makeRequest net).1 = .ok (handleResponse r)) ∧
      ∀ e0, net 0 = .error e0 →
        (makeRequest net).2 = [.attempt 0, .sleepSec 2, .attempt 1] ∧
          ReqEvent.rewarm ∉ (makeRequest net).2 := by
  rw [makeRequest_eq]
  cases h0 : net 0 with
  | ok r0 =>
    by_cases h403 : r0.statusCode = 403
    · cases h1 : net 1 with
      | ok r1 =>
        refine ⟨by simp [h403, numAttempts], ?_, ?_, ?_⟩
        · simp only [h403, if_true, ite_true]
          constructor
          · intro _; exact ⟨r0, rfl, h403⟩
          · intro _; simp
        · intro r hr hne
          injection hr with hr
          subst hr
          exact absurd h403 hne
        · intro e0 he
          exact absurd he (by simp)
      | error e1 =>
        refine ⟨by simp [h403, numAttempts], ?_, ?_, ?_⟩
        · simp only [h403, if_true, ite_true]
          constructor
          · intro _; exact ⟨r0, rfl, h403⟩
          · intro _; simp
        · intro r hr hne
          injection hr with hr
          subst hr
          exact absurd h403 hne
        · intro e0 he
          exact absurd he (by simp)
    · refine ⟨by simp [h403, numAttempts], ?_, ?_, ?_⟩
      · simp only [h403, ite_false, if_false]
        constructor
        · intro hmem
          simp at hmem
        · rintro ⟨r, hr, h403r⟩
          injection hr with hr
          subst hr
          exact absurd h403r h403
      · intro r hr hne
        injection hr with hr
        subst hr
        simp [h403]
      · intro e0 he
        exact absurd he (by simp)
  | error e0 =>
    cases h1 : net 1 with
    | ok r1 =>
      refine ⟨by simp [numAttempts], ?_, ?_, ?_⟩
      · constructor
        · intro hmem
          simp at hmem
        · rintro ⟨r, hr, _⟩
          exact absurd hr (by simp)
      · intro r hr _
        exact absurd hr (by simp)
      · intro e he
        exact ⟨rfl, by simp⟩
    | error e1 =>
      refine ⟨by simp [numAttempts], ?_, ?_, ?_⟩
      · constructor
        · intro hmem
          simp at hmem
        · rintro ⟨r, hr, _⟩
          exact absurd hr (by simp)
      · intro r hr _
        exact absurd hr (by simp)
      · intro e he
        exact ⟨rfl, by simp⟩

theorem gateway_retry_policy_witness :
    netOk 0 = .ok respOk ∧ respOk.statusCode ≠ 403 ∧
      (makeRequest netOk).2 = [.attempt 0] := by
  refine ⟨rfl, by decide, ?_⟩
  exact ((gateway_retry_policy netOk).2.2.1 respOk rfl (by decide)).1

/-- C9 counterexample: a requested quantity of 0 is falsy in Python, so
`quantity or DEFAULT_DOWNVOTE_QUANTITY` substitutes the default 5 and the
order is sent with quantity 5, not max(3, 0) = 3. -/
theorem quantity_floor_counterexample :
    (downvoteCommentParams "https://www.reddit.com/r/x/comments/a/b/c"
        (some 0)).quantity = 5 ∧
      max 3 (0 : ℤ) = 3 ∧ (5 : ℤ) ≠ 3 := by
  refine ⟨by decide, by decide, by decide⟩

/-- C9 (amended): for every nonzero requested quantity q,
`downvote_comment` submits an `add` order for service 8 with quantity
max(3, q) (a zero or omitted quantity is replaced by the configured default
5 before the floor); and whenever the final response is a non-error,
non-HTML JSON payload, `_make_request` returns that payload unchanged — in
particular a success payload's order identifier reaches the caller. -/
theorem quantity_floor (url : String) (q : ℤ) (hq : q ≠ 0) :
    (downvoteCommentParams url (some q)).quantity = max 3 q ∧
      (downvoteCommentParams url (some q)).service = DOWNVOTE_SERVICE_ID ∧
      (downvoteCommentParams url (some q)).action = "add" ∧
      (downvoteCommentParams url (some q)).link = url ∧
      (downvoteCommentParams url none).quantity =
        max 3 DEFAULT_DOWNVOTE_QUANTITY ∧
      ∀ (r : HttpResponse) (d : ApiDict),
        r.statusCode < 400 → proxyDenied r = false →
        htmlInsteadOfJson r = false → r.json? = some d →
        handleResponse r = d := by
  refine ⟨?_, rfl, rfl, rfl, rfl, ?_⟩
  · simp [downvoteCommentParams, addOrderParams, downvoteQty, pyOrInt, hq]
  · intro r d h400 hproxy hhtml hjson
    have h403 : ¬ (r.statusCode = 403) := by omega
    have h400' : ¬ (400 ≤ r.statusCode) := by omega
    simp [handleResponse, h403, h400', hproxy, hhtml, hjson]

theorem quantity_floor_witness :
    (10 : ℤ) ≠ 0 ∧
      (downvoteCommentParams "u" (some 10)).quantity = max 3 10 ∧
      handleResponse respOrder = [("order", "1234")] := by
  have h := quantity_floor "u" 10 (by decide)
  exact ⟨by decide, h.1,
    h.2.2.2.2.2 respOrder [("order", "1234")] (by decide) (by decide)
      (by decide) rfl⟩

/-- C8: the fetcher is total — an exception from the request or JSON parse
yields `[]`; a successful top-level list of length > 1 is unpacked to its
second element; and every comment the recursive walk returns has a truthy
(non-empty) id and an author other than `'[deleted]'`. -/
theorem fetcher_totality :
    (∀ e, getComments (.error e) = []) ∧
      (∀ (v1 v2 : PyVal) (rest : List PyVal),
        getComments (.ok (.plist (v1 :: v2 :: rest))) = extractComments v2) ∧
      ∀ (v : PyVal) (c : RedditCommentPy), c ∈ extractComments v →
        truthy c.id = true ∧ pyEqStr c.author "[deleted]" = false := by
  refine ⟨fun e => rfl, fun v1 v2 rest => rfl, ?_⟩
  intro v
  induction v using extractComments.induct with
  | case1 kvs h cd h0 ih =>
    intro c hc
    rw [extractComments, if_pos h] at hc
    split at hc
    · next cd' heq =>
        rw [h0] at heq
        obtain rfl : cd = cd' := by
          injection heq with heq2
          injection heq2
        rcases List.mem_append.1 hc with hkeep | hrep
        · split at hkeep
          · next hguard =>
              rcases List.mem_singleton.1 hkeep with rfl
              rw [Bool.and_eq_true] at hguard
              refine ⟨hguard.1, ?_⟩
              simpa using hguard.2
          · simp at hkeep
        · split at hrep
          · next rv hrv =>
              split at hrep
              · exact ih rv hrv c hrep
              · simp at hrep
          · simp at hrep
    · simp at hc
  | case2 kvs h hnd =>
    intro c hc
    rw [extractComments, if_pos h] at hc
    split at hc
    · next cd' heq => exact (hnd cd' heq).elim
    · simp at hc
  | case3 kvs h1 h2 cd h0 cs hch ih =>
    intro c hc
    rw [extractComments, if_neg h1, if_pos h2] at hc
    split at hc
    · next cd' heq =>
        rw [h0] at heq
        obtain rfl : cd = cd' := by
          injection heq with heq2
          injection heq2
        split at hc
        · next cs' hch' =>
            rw [hch] at hch'
            obtain rfl : cs = cs' := by
              injection hch' with hch2
              injection hch2
            simp only [List.mem_flatten, List.mem_map] at hc
            obtain ⟨l, ⟨x, hx, rfl⟩, hcl⟩ := hc
            exact ih x c hcl
        · simp at hc
    · simp at hc
  | case4 kvs h1 h2 cd h0 hnl =>
    intro c hc
    rw [extractComments, if_neg h1, if_pos h2] at hc
    split at hc
    · next cd' heq =>
        rw [h0] at heq
        obtain rfl : cd = cd' := by
          injection heq with heq2
          injection heq2
        split at hc
        · next cs' hch' => exact (hnl cs' hch').elim
        · simp at hc
    · simp at hc
  | case5 kvs h1 h2 hnd =>
    intro c hc
    rw [extractComments, if_neg h1, if_pos h2] at hc
    split at hc
    · next cd' heq => exact (hnd cd' heq).elim
    · simp at hc
  | case6 kvs h1 h2 =>
    intro c hc
    rw [extractComments, if_neg h1, if_neg h2] at hc
    simp at hc
  | case7 xs ih =>
    intro c hc
    simp only [extractComments] at hc
    simp only [List.mem_flatten, List.mem_map] at hc
    obtain ⟨l, ⟨x, hx, rfl⟩, hcl⟩ := hc
    exact ih x c hcl
  | case8 v hv1 hv2 =>
    intro c hc
    cases v with
    | pdict kvs => exact (hv1 kvs rfl).elim
    | plist xs => exact (hv2 xs rfl).elim
    | pstr s => simp [extractComments] at hc
    | pnum q => simp [extractComments] at hc
    | pbool b => simp [extractComments] at hc
    | pnone => simp [extractComments] at hc

theorem fetcher_totality_witness :
    getComments (.error "timeout") = [] ∧
      getComments (.ok (.plist [.pnone, vT1])) = extractComments vT1 ∧
      truthy cC8.id = true ∧ pyEqStr cC8.author "[deleted]" = false := by
  have hvt : extractComments vT1 = [cC8] := by
    simp [extractComments, vT1, cC8, pyGet, pyGetD, truthy, pyEqStr,
      Option.any, List.lookup]
  refine ⟨fetcher_totality.1 "timeout", fetcher_totality.2.1 .pnone vT1 [], ?_⟩
  refine fetcher_totality.2.2 vT1 cC8 ?_
  rw [hvt]
  exact List.mem_singleton.2 rfl

end VoteWatch
